import Mathlib

/-!
Shallow embedding of `src/comfy-client.ts` (ComfyJob / ComfyClient):
the job-lifecycle state machine, the client's job registry, and the
operations that drive them (queue, the socket "executing" handler,
cancel, clear_queue, delete_queue_entries, clone, completion).

Modelling conventions:
- A `ComfyJob` object is a `JobRec`; the system state `Sys` holds the
  table of all job objects (indexed by position, standing for object
  identity) together with the client's `#jobs` map (`registry`), an
  insertion-ordered association list mirroring a JS `Map`.
- HTTP responses are inputs: `Except Nat α` carries either the decoded
  ok-body or the non-ok status code (on which the TS code throws).
- User callbacks are counted (`nCompleted`, `nCancelled`, `nUpdate`,
  `nError`) instead of executed; `lastErr` records the argument last
  passed to the user's `onError` callback. The model assumes all four
  callbacks were supplied, so every closure invocation bumps a counter.
- Mutations performed before a TS `throw` persist on the object, so
  operations return the post-state together with an optional error
  instead of `Except`.
-/

/-- `ComfyJob_Status` from the source. -/
inductive Status
  | building
  | queued
  | running
  | completed
  | failed
  | cancelled
deriving DecidableEq

/-- Terminal states per the glossary: `completed`, `failed`, `cancelled`. -/
def isTerminal : Status → Bool
  | .completed => true
  | .failed => true
  | .cancelled => true
  | _ => false

/-- Argument the code passes to the user's `onError` callback: either the
submission response's `errors` field (line 84) or the literal empty list
used by the bulk operations (lines 492 and 512). -/
inductive ErrArg
  | respErrors (v : Nat)
  | emptyList
deriving DecidableEq

/-- One `ComfyJob` object: its private fields plus invocation counters for
the four user callbacks. `workflow` is an opaque payload identifier. -/
structure JobRec where
  workflow : Nat
  status : Status
  uid : Option String
  parentSet : Bool
  nCompleted : Nat
  nCancelled : Nat
  nUpdate : Nat
  nError : Nat
  lastErr : Option ErrArg
  lastNode : Option Nat
deriving DecidableEq

/-- A fresh `ComfyJob` as built by `new ComfyJob(wk)` (constructor,
lines 42-44): status `building`, no uid, no parent, no callbacks run. -/
def newJobRec (wk : Nat) : JobRec :=
  { workflow := wk, status := .building, uid := none, parentSet := false,
    nCompleted := 0, nCancelled := 0, nUpdate := 0, nError := 0,
    lastErr := none, lastNode := none }

/-- The client state the claims depend on: the table of job objects and
the `#jobs` registry (`Map<string, entry>`), kept in insertion order. -/
structure Sys where
  jobs : List JobRec
  registry : List (String × Nat)
deriving DecidableEq

/-- `Map.get`. -/
def regGet (r : List (String × Nat)) (k : String) : Option Nat :=
  (r.find? (fun p => p.1 = k)).map Prod.snd

/-- `Map.set`: replace in place if the key exists, else append
(JS `Map` keeps the original insertion position on overwrite). -/
def regSet (r : List (String × Nat)) (k : String) (v : Nat) : List (String × Nat) :=
  if r.any (fun p => p.1 = k) then r.map (fun p => if p.1 = k then (k, v) else p)
  else r ++ [(k, v)]

/-- `Map.delete`. -/
def regErase (r : List (String × Nat)) (k : String) : List (String × Nat) :=
  r.filter (fun p => p.1 ≠ k)

/-- Apply `f` to job object `jid` (no-op on an out-of-range index, which
has no counterpart in the source: there is always a receiver object). -/
def updJob (s : Sys) (jid : Nat) (f : JobRec → JobRec) : Sys :=
  match s.jobs[jid]? with
  | some j => { s with jobs := s.jobs.set jid (f j) }
  | none => s

/-- The `onCompleted` closure registered by `queue` (lines 87-91):
set status `completed`, unregister this job's uid, run the user's
`onCompleted` callback. -/
def runOnCompleted (s : Sys) (jid : Nat) : Sys :=
  match s.jobs[jid]? with
  | none => s
  | some j =>
    { jobs := s.jobs.set jid
        { j with status := .completed, nCompleted := j.nCompleted + 1 },
      registry := regErase s.registry (j.uid.getD "") }

/-- The `onError` closure registered by `queue` (lines 96-100):
set status `failed`, unregister this job's uid, run the user's
`onError` callback with `errors`. -/
def runOnError (s : Sys) (jid : Nat) (arg : ErrArg) : Sys :=
  match s.jobs[jid]? with
  | none => s
  | some j =>
    { jobs := s.jobs.set jid
        { j with status := .failed, nError := j.nError + 1, lastErr := some arg },
      registry := regErase s.registry (j.uid.getD "") }

/-- The `onUpdate` closure registered by `queue` (lines 92-95): set status
`running`, run the user's `onUpdate` callback with the node index.
No code path in the source ever invokes this closure. -/
def runOnUpdate (s : Sys) (jid : Nat) (node : Nat) : Sys :=
  updJob s jid (fun j =>
    { j with status := .running, nUpdate := j.nUpdate + 1, lastNode := some node })

/-- The `onCancelled` closure registered by `queue` (lines 101-104): set
status `cancelled`, run the user's `onCancelled` callback.
No code path in the source ever invokes this closure. -/
def runOnCancelled (s : Sys) (jid : Nat) : Sys :=
  updJob s jid (fun j =>
    { j with status := .cancelled, nCancelled := j.nCancelled + 1 })

/-- Decoded body of a successful `POST /prompt` response, as read by
`queue` (lines 79-85): `prompt_id`, the per-node error map (modelled by
its list of keys) and the `errors` field. -/
structure PromptResp where
  prompt_id : String
  node_errors : List String
  errors : Nat
deriving DecidableEq

/-- Errors `queue` can throw: the double-queue guard (line 72) or a
propagated non-ok submission response (`post_prompt`, line 551). -/
inductive QueueErr
  | invalidState
  | request (code : Nat)
deriving DecidableEq

/-- `ComfyJob.queue` (lines 66-109). `resp` is the outcome of
`post_prompt(workflow)`: the decoded body when the response is ok, else
the status code `post_prompt` throws with. Returns the post-state and
the error thrown, if any. Mutation order follows the source: the guard,
then parent/callback assignment, then `post_prompt`, then status/uid
assignment, the node-error branch, and finally unconditional
registration under the job's uid. -/
def queueJob (s : Sys) (jid : Nat) (resp : Except Nat PromptResp) :
    Sys × Option QueueErr :=
  match s.jobs[jid]? with
  | none => (s, none)
  | some j =>
    if j.status ≠ .building then (s, some .invalidState)
    else
      let s1 := updJob s jid (fun j0 => { j0 with parentSet := true })
      match resp with
      | .error e => (s1, some (.request e))
      | .ok r =>
        let s2 := updJob s1 jid
          (fun j0 => { j0 with status := .queued, uid := some r.prompt_id })
        let s3 :=
          if r.node_errors ≠ [] then
            updJob s2 jid (fun j0 =>
              { j0 with status := .failed, nError := j0.nError + 1,
                        lastErr := some (.respErrors r.errors) })
          else s2
        ({ s3 with registry := regSet s3.registry r.prompt_id jid }, none)

/-- An inbound socket frame after JSON decoding, discriminated by `type`
as in the message listener (lines 164-182). `other` covers every type
with no handler branch. -/
inductive StreamMsg
  | statusMsg
  | executing (prompt_id : String) (node : Option Nat)
  | monitor
  | other
deriving DecidableEq

/-- The socket message listener (lines 164-182): only an `executing`
frame whose `data.node` is `null` and whose `data.prompt_id` is in the
registry has an effect, namely running that entry's `onCompleted`
closure. Every other frame (including `executing` with a non-null node)
only logs. -/
def handleMessage (s : Sys) (m : StreamMsg) : Sys :=
  match m with
  | .executing pid node =>
    match regGet s.registry pid, node with
    | some jid, none => runOnCompleted s jid
    | _, _ => s
  | _ => s

/-- `ComfyClient.delete_queue_entries` (lines 500-518). On an ok
response, walks the registry in insertion order and runs `onError`
(with `[]`) on every entry whose key is in `entries`; each such closure
removes exactly the entry being visited, so folding over a snapshot of
the registry matches the live JS `Map` iteration. On a non-ok response,
throws the status code without touching any job. -/
def deleteQueueEntries (s : Sys) (entries : List String) (resp : Except Nat Unit) :
    Sys × Option Nat :=
  match resp with
  | .error e => (s, some e)
  | .ok _ =>
    (s.registry.foldl
      (fun acc p => if entries.contains p.1 then runOnError acc p.2 .emptyList else acc)
      s, none)

/-- `ComfyClient.clear_queue` (lines 480-498). On an ok response, runs
`onError` (with `[]`) on every registry entry in insertion order; on a
non-ok response, throws the status code without touching any job. -/
def clearQueue (s : Sys) (resp : Except Nat Unit) : Sys × Option Nat :=
  match resp with
  | .error e => (s, some e)
  | .ok _ =>
    (s.registry.foldl (fun acc p => runOnError acc p.2 .emptyList) s, none)

/-- `ComfyJob.cancel` (lines 123-126). Returns the post-state, whether a
backend deletion request was issued, and the error thrown, if any. For a
job in `cancelled`, `failed`, `completed` or `building` it returns at
once; otherwise it calls `delete_queue_entries([uid])`. -/
def cancelJob (s : Sys) (jid : Nat) (resp : Except Nat Unit) :
    Sys × Bool × Option Nat :=
  match s.jobs[jid]? with
  | none => (s, false, none)
  | some j =>
    if j.status = .cancelled ∨ j.status = .failed ∨ j.status = .completed ∨
        j.status = .building then
      (s, false, none)
    else
      let r := deleteQueueEntries s [j.uid.getD ""] resp
      (r.1, true, r.2)

/-- `ComfyJob.clone` (lines 50-54): a brand-new job object sharing the
workflow payload. Returns the new state and the fresh object's index. -/
def cloneJob (s : Sys) (jid : Nat) : Sys × Nat :=
  match s.jobs[jid]? with
  | none => (s, s.jobs.length)
  | some j => ({ s with jobs := s.jobs ++ [newJobRec j.workflow] }, s.jobs.length)

/-- `ComfyJob.completion` (lines 113-118): `while (true) { if (status ===
'running') sleep(0); else break; }`. The `sleep(0)` promise is not
awaited, so the loop is synchronous: it returns (immediately, with the
status unchanged) exactly when the status is not `running`, and spins
forever when it is. -/
def completionTerminates (st : Status) : Bool := st ≠ .running

/-! Concrete scenarios used in the claim theorems below. -/

/-- A client with one freshly built job and an empty registry. -/
def sysOneJob : Sys := { jobs := [newJobRec 0], registry := [] }

/-- `sysOneJob` after a successful submission of job 0 with no node
errors: the job is `queued` under uid "p" and registered. -/
def queuedSubmitSys : Sys := (queueJob sysOneJob 0 (Except.ok ⟨"p", [], 0⟩)).1

/-- `sysOneJob` after a submission of job 0 whose response reports node
errors (`node_errors = ["e1"]`, `errors = 7`). -/
def failedSubmitSys : Sys := (queueJob sysOneJob 0 (Except.ok ⟨"p", ["e1"], 7⟩)).1

/-- `queuedSubmitSys` after an `executing` event for "p" with node 3. -/
def c1Sys2 : Sys := handleMessage queuedSubmitSys (StreamMsg.executing "p" (some 3))

/-- `c1Sys2` after an `executing` event for "p" with node 7. -/
def c1Sys3 : Sys := handleMessage c1Sys2 (StreamMsg.executing "p" (some 7))

/-- `c1Sys3` after an `executing` event for "p" with node `null`. -/
def c1Sys4 : Sys := handleMessage c1Sys3 (StreamMsg.executing "p" none)

/-- A client with two freshly built jobs. -/
def sysTwoJobs : Sys := { jobs := [newJobRec 0, newJobRec 1], registry := [] }

/-- `sysTwoJobs` after queueing job 0 successfully (uid "p", no node
errors) and job 1 with reported node errors (uid "q"): job 0 is
`queued`, job 1 is `failed`, and both are registered. -/
def mixedSubmitSys : Sys :=
  (queueJob (queueJob sysTwoJobs 0 (Except.ok ⟨"p", [], 0⟩)).1 1
    (Except.ok ⟨"q", ["bad"], 9⟩)).1

/-- A client with one job already in the terminal state `completed`. -/
def sysDoneJob : Sys :=
  { jobs := [{ newJobRec 0 with status := Status.completed, uid := some "p" }],
    registry := [] }

/-! Helper lemmas. -/

theorem updJob_registry (s : Sys) (jid : Nat) (f : JobRec → JobRec) :
    (updJob s jid f).registry = s.registry := by
  unfold updJob
  cases s.jobs[jid]? <;> rfl

theorem updJob_getElem_self (s : Sys) (jid : Nat) (f : JobRec → JobRec) (j : JobRec)
    (hj : s.jobs[jid]? = some j) : (updJob s jid f).jobs[jid]? = some (f j) := by
  unfold updJob
  rw [hj]
  simp only
  rw [List.getElem?_set_self]
  exact (List.getElem?_eq_some.mp hj).1

theorem runOnError_getElem_ne (s : Sys) (k : Nat) (arg : ErrArg) (i : Nat)
    (h : k ≠ i) : (runOnError s k arg).jobs[i]? = s.jobs[i]? := by
  unfold runOnError
  cases s.jobs[k]? with
  | none => rfl
  | some j => simp [List.getElem?_set_ne h]

theorem runOnCompleted_getElem_ne (s : Sys) (k : Nat) (i : Nat)
    (h : k ≠ i) : (runOnCompleted s k).jobs[i]? = s.jobs[i]? := by
  unfold runOnCompleted
  cases s.jobs[k]? with
  | none => rfl
  | some j => simp [List.getElem?_set_ne h]

theorem foldlOnError_getElem_ne (l : List (String × Nat)) (cond : String × Nat → Bool)
    (i : Nat) (h : ∀ p ∈ l, p.2 ≠ i) :
    ∀ s : Sys,
      (l.foldl (fun acc p => if cond p then runOnError acc p.2 ErrArg.emptyList else acc)
        s).jobs[i]? = s.jobs[i]? := by
  induction l with
  | nil => intro s; rfl
  | cons q t ih =>
    intro s
    rw [List.foldl_cons]
    rw [ih (fun p hp => h p (List.mem_cons_of_mem q hp))]
    by_cases hc : cond q = true
    · simp only [hc, if_true]
      exact runOnError_getElem_ne s q.2 ErrArg.emptyList i (h q (List.mem_cons_self q t))
    · simp [hc]

theorem queueJob_nonbuilding (s : Sys) (jid : Nat) (j : JobRec)
    (hj : s.jobs[jid]? = some j) (hb : j.status ≠ Status.building)
    (resp : Except Nat PromptResp) :
    queueJob s jid resp = (s, some QueueErr.invalidState) := by
  unfold queueJob
  rw [hj]
  simp [hb]

theorem sysMk_jobs_getElem (l : List JobRec) (r : List (String × Nat)) (i : Nat) :
    (Sys.mk l r).jobs[i]? = l[i]? := rfl

theorem sysMk_registry (l : List JobRec) (r : List (String × Nat)) :
    (Sys.mk l r).registry = r := rfl

theorem queueJob_ok_status (s : Sys) (jid : Nat) (h : jid < s.jobs.length)
    (resp : Except Nat PromptResp) (s' : Sys)
    (hq : queueJob s jid resp = (s', none)) :
    ∃ j', s'.jobs[jid]? = some j' ∧ j'.status ≠ Status.building := by
  obtain ⟨j, hj⟩ : ∃ j, s.jobs[jid]? = some j := ⟨s.jobs[jid], List.getElem?_eq_getElem h⟩
  by_cases hb : j.status = Status.building
  · cases resp with
    | error e =>
      unfold queueJob at hq
      rw [hj] at hq
      simp only [hb, ne_eq, not_true_eq_false, if_false] at hq
      simp at hq
    | ok r =>
      unfold queueJob at hq
      rw [hj] at hq
      simp only [hb, ne_eq, not_true_eq_false, if_false] at hq
      have hs' := congrArg Prod.fst hq
      simp only at hs'
      by_cases hne : r.node_errors = []
      · simp only [hne, ne_eq, not_true_eq_false, if_false] at hs'
        subst hs'
        rw [sysMk_jobs_getElem,
          updJob_getElem_self _ jid _ _ (updJob_getElem_self s jid _ j hj)]
        exact ⟨_, rfl, show Status.queued ≠ Status.building by decide⟩
      · simp only [ne_eq, hne, not_false_eq_true, if_true] at hs'
        subst hs'
        rw [sysMk_jobs_getElem,
          updJob_getElem_self _ jid _ _
            (updJob_getElem_self _ jid _ _ (updJob_getElem_self s jid _ j hj))]
        exact ⟨_, rfl, show Status.failed ≠ Status.building by decide⟩
  · rw [queueJob_nonbuilding s jid j hj hb resp] at hq
    simp at hq

/-- C1: the spec says a progress event with a present step indicator puts a
queued/running job in `running` and invokes its progress callback; on the
stream [3, 7, null] the code instead leaves the job `queued` through both
step events and never invokes the progress callback (the socket listener
only reacts to a null node), while the null event still completes the job
(completion callback once, entry unregistered). -/
theorem c1_progress_events_ignored :
    c1Sys2.jobs[0]?.map JobRec.status = some Status.queued ∧
    c1Sys2.jobs[0]?.map JobRec.nUpdate = some 0 ∧
    c1Sys3.jobs[0]?.map JobRec.status = some Status.queued ∧
    c1Sys3.jobs[0]?.map JobRec.nUpdate = some 0 ∧
    c1Sys4.jobs[0]?.map JobRec.status = some Status.completed ∧
    c1Sys4.jobs[0]?.map JobRec.nUpdate = some 0 ∧
    c1Sys4.jobs[0]?.map JobRec.nCompleted = some 1 ∧
    c1Sys4.registry = [] := by decide

/-- C2: on a submission response with a non-empty node-error map the job
does end `failed` with its error callback invoked with the response's
reported errors, but contrary to the claim the job is then still
registered: `registerExecutingCallback` runs unconditionally after the
error branch. -/
theorem c2_failed_submit_still_registered :
    failedSubmitSys.jobs[0]?.map JobRec.status = some Status.failed ∧
    failedSubmitSys.jobs[0]?.map JobRec.nError = some 1 ∧
    failedSubmitSys.jobs[0]?.map JobRec.lastErr = some (some (ErrArg.respErrors 7)) ∧
    regGet failedSubmitSys.registry "p" = some 0 := by decide

/-- C3: cancelling a queued job does issue the backend deletion request for
its uid, but when the deletion response arrives the registry routes it
through the `onError` closure: the job ends `failed` with the error
callback invoked, and the cancellation callback (which alone sets
`cancelled`) is never invoked anywhere in the code. -/
theorem c3_cancel_ends_failed :
    (cancelJob queuedSubmitSys 0 (Except.ok ())).2.1 = true ∧
    (cancelJob queuedSubmitSys 0 (Except.ok ())).1.jobs[0]?.map JobRec.status
      = some Status.failed ∧
    (cancelJob queuedSubmitSys 0 (Except.ok ())).1.jobs[0]?.map JobRec.nError = some 1 ∧
    (cancelJob queuedSubmitSys 0 (Except.ok ())).1.jobs[0]?.map JobRec.nCancelled
      = some 0 := by decide

/-- C4: a job that failed at submission (terminal state `failed`) is still
registered, so a later `executing` event with a null node for its uid
drives it from the terminal state `failed` into the different terminal
state `completed`, violating the claimed state machine. -/
theorem c4_terminal_state_changes :
    failedSubmitSys.jobs[0]?.map JobRec.status = some Status.failed ∧
    isTerminal Status.failed = true ∧
    (handleMessage failedSubmitSys (StreamMsg.executing "p" none)).jobs[0]?.map
      JobRec.status = some Status.completed ∧
    isTerminal Status.completed = true := by decide

/-- C5: `completion()` returns whenever the status is not `running`, so it
resolves on a job that is still `queued` — a non-terminal state —
contradicting the claim that it resolves only once the job is terminal. -/
theorem c5_completion_returns_nonterminal :
    completionTerminates Status.queued = true ∧ isTerminal Status.queued = false := by
  decide

/-- C6: after a successful bulk queue-clear every registered queued job is
forced to `failed` with its error callback invoked once and the registry
is emptied, but a job already terminal (`failed` at submission) that is
still registered has its error callback invoked a second time, so
terminal jobs are not left untouched as the claim states. -/
theorem c6_clear_queue_touches_terminal :
    mixedSubmitSys.jobs[1]?.map JobRec.status = some Status.failed ∧
    mixedSubmitSys.jobs[1]?.map JobRec.nError = some 1 ∧
    (clearQueue mixedSubmitSys (Except.ok ())).1.jobs[0]?.map JobRec.status
      = some Status.failed ∧
    (clearQueue mixedSubmitSys (Except.ok ())).1.jobs[0]?.map JobRec.nError = some 1 ∧
    (clearQueue mixedSubmitSys (Except.ok ())).1.jobs[1]?.map JobRec.nError = some 2 ∧
    (clearQueue mixedSubmitSys (Except.ok ())).1.registry = [] := by decide

/-- C7 counterexample: when the first `queue()` call fails because the
submission request itself throws, the job is left in `building`, and a
second `queue()` call is accepted (no InvalidStateError), contradicting
the claim for first calls that completed with failure. -/
theorem c7_retry_after_request_failure :
    (queueJob sysOneJob 0 (Except.error 500)).2 = some (QueueErr.request 500) ∧
    (queueJob (queueJob sysOneJob 0 (Except.error 500)).1 0
      (Except.ok ⟨"p", [], 0⟩)).2 = none := by decide

/-- C7 (amended): once a first `queue()` call has returned without
throwing — covering both a clean submission and a submission that
reported node errors — every subsequent `queue()` call on the same job
fails with the already-queued InvalidStateError and leaves the state
unchanged (hence the same holds for every number of repeated attempts). -/
theorem c7_second_queue_rejected (s : Sys) (jid : Nat) (h : jid < s.jobs.length)
    (resp : Except Nat PromptResp) (s' : Sys)
    (hq : queueJob s jid resp = (s', none)) (resp2 : Except Nat PromptResp) :
    queueJob s' jid resp2 = (s', some QueueErr.invalidState) := by
  obtain ⟨j', hj', hb'⟩ := queueJob_ok_status s jid h resp s' hq
  exact queueJob_nonbuilding s' jid j' hj' hb' resp2

/-- C7 witness: concrete instance of the amended claim. -/
theorem c7_second_queue_rejected_witness :
    queueJob queuedSubmitSys 0 (Except.ok ⟨"p2", [], 0⟩)
      = (queuedSubmitSys, some QueueErr.invalidState) :=
  c7_second_queue_rejected sysOneJob 0 (by decide) (Except.ok ⟨"p", [], 0⟩)
    queuedSubmitSys (by decide) (Except.ok ⟨"p2", [], 0⟩)

/-- C8: calling `cancel()` on a job in `building`, `failed`, `completed`
or `cancelled` is a no-op: the state is unchanged and no backend
deletion request is issued. -/
theorem c8_cancel_noop (s : Sys) (jid : Nat) (j : JobRec)
    (hj : s.jobs[jid]? = some j)
    (hst : j.status = Status.building ∨ j.status = Status.failed ∨
      j.status = Status.completed ∨ j.status = Status.cancelled)
    (resp : Except Nat Unit) :
    cancelJob s jid resp = (s, false, none) := by
  unfold cancelJob
  rw [hj]
  simp only
  rw [if_pos (by rcases hst with h | h | h | h <;> simp [h])]

/-- C8 witness: cancelling a completed job concretely. -/
theorem c8_cancel_noop_witness :
    cancelJob sysDoneJob 0 (Except.ok ()) = (sysDoneJob, false, none) :=
  c8_cancel_noop sysDoneJob 0
    { newJobRec 0 with status := Status.completed, uid := some "p" }
    (by decide) (by decide) (Except.ok ())

/-- C9: `clone()` yields a fresh job in `building` sharing the original's
workflow and with no uid; the clone can be submitted (no
InvalidStateError), and neither stream events correlated to registered
jobs nor cancelling the original change the clone's record. -/
theorem c9_clone_independent (s : Sys) (jid : Nat) (j : JobRec)
    (hj : s.jobs[jid]? = some j)
    (hreg : ∀ p ∈ s.registry, p.2 < s.jobs.length) :
    (cloneJob s jid).1.jobs[(cloneJob s jid).2]? = some (newJobRec j.workflow) ∧
    (newJobRec j.workflow).status = Status.building ∧
    (newJobRec j.workflow).uid = none ∧
    (∀ r, (queueJob (cloneJob s jid).1 (cloneJob s jid).2 (Except.ok r)).2 = none) ∧
    (∀ pid node,
      (handleMessage (cloneJob s jid).1
        (StreamMsg.executing pid node)).jobs[(cloneJob s jid).2]?
        = some (newJobRec j.workflow)) ∧
    (∀ resp, (cancelJob (cloneJob s jid).1 jid resp).1.jobs[(cloneJob s jid).2]?
        = some (newJobRec j.workflow)) := by
  have hlen : jid < s.jobs.length := (List.getElem?_eq_some.mp hj).1
  have h1 : (cloneJob s jid).1
      = Sys.mk (s.jobs ++ [newJobRec j.workflow]) s.registry := by
    unfold cloneJob
    rw [hj]
  have h2 : (cloneJob s jid).2 = s.jobs.length := by
    unfold cloneJob
    rw [hj]
  rw [h1, h2]
  have hcell : (Sys.mk (s.jobs ++ [newJobRec j.workflow])
        s.registry).jobs[s.jobs.length]? = some (newJobRec j.workflow) :=
    List.getElem?_concat_length _ _
  refine ⟨hcell, rfl, rfl, ?_, ?_, ?_⟩
  · intro r
    unfold queueJob
    rw [hcell]
    simp [newJobRec]
  · intro pid node
    cases hfind : regGet s.registry pid with
    | none =>
      have hmsg : handleMessage
          (Sys.mk (s.jobs ++ [newJobRec j.workflow]) s.registry)
          (StreamMsg.executing pid node)
          = Sys.mk (s.jobs ++ [newJobRec j.workflow]) s.registry := by
        cases node <;> simp [handleMessage, sysMk_registry, hfind]
      rw [hmsg]
      exact hcell
    | some kid =>
      have hk : kid < s.jobs.length := by
        unfold regGet at hfind
        cases hf : s.registry.find? (fun p => p.1 = pid) with
        | none => rw [hf] at hfind; simp at hfind
        | some q =>
          rw [hf] at hfind
          simp at hfind
          exact hfind ▸ hreg q (List.mem_of_find?_eq_some hf)
      cases node with
      | some n =>
        have hmsg : handleMessage
            (Sys.mk (s.jobs ++ [newJobRec j.workflow]) s.registry)
            (StreamMsg.executing pid (some n))
            = Sys.mk (s.jobs ++ [newJobRec j.workflow]) s.registry := by
          simp [handleMessage, sysMk_registry, hfind]
        rw [hmsg]
        exact hcell
      | none =>
        have hmsg : handleMessage
            (Sys.mk (s.jobs ++ [newJobRec j.workflow]) s.registry)
            (StreamMsg.executing pid none)
            = runOnCompleted
                (Sys.mk (s.jobs ++ [newJobRec j.workflow]) s.registry) kid := by
          simp [handleMessage, sysMk_registry, hfind]
        rw [hmsg,
          runOnCompleted_getElem_ne _ kid s.jobs.length (Nat.ne_of_lt hk)]
        exact hcell
  · intro resp
    have hgetj : (Sys.mk (s.jobs ++ [newJobRec j.workflow])
        s.registry).jobs[jid]? = some j :=
      (List.getElem?_append_left hlen).trans hj
    unfold cancelJob
    rw [hgetj]
    simp only
    by_cases hterm : j.status = Status.cancelled ∨ j.status = Status.failed ∨
        j.status = Status.completed ∨ j.status = Status.building
    · rw [if_pos hterm]
      exact hcell
    · rw [if_neg hterm]
      cases resp with
      | error e => exact hcell
      | ok u =>
        have hne : ∀ p ∈ s.registry, p.2 ≠ s.jobs.length :=
          fun p hp => Nat.ne_of_lt (hreg p hp)
        exact (foldlOnError_getElem_ne s.registry
          (fun p => [j.uid.getD ""].contains p.1) s.jobs.length hne
          (Sys.mk (s.jobs ++ [newJobRec j.workflow]) s.registry)).trans hcell

/-- C9 witness: cloning the queued job of `queuedSubmitSys`. -/
theorem c9_clone_independent_witness :
    (cloneJob queuedSubmitSys 0).1.jobs[(cloneJob queuedSubmitSys 0).2]?
      = some (newJobRec 0) :=
  (c9_clone_independent queuedSubmitSys 0
    { workflow := 0, status := Status.queued, uid := some "p", parentSet := true,
      nCompleted := 0, nCancelled := 0, nUpdate := 0, nError := 0,
      lastErr := none, lastNode := none }
    (by decide) (by decide)).1

/-- C10: if the submission request itself fails (`post_prompt` throws),
the error propagates out of `queue()` and the job is left in `building`
with no uid, and the registry is unchanged (only the parent/callback
assignment has happened). -/
theorem c10_request_failure_leaves_building (s : Sys) (jid : Nat) (j : JobRec)
    (hj : s.jobs[jid]? = some j) (hb : j.status = Status.building)
    (hu : j.uid = none) (e : Nat) :
    (queueJob s jid (Except.error e)).2 = some (QueueErr.request e) ∧
    (queueJob s jid (Except.error e)).1.jobs[jid]?.map JobRec.status
      = some Status.building ∧
    (queueJob s jid (Except.error e)).1.jobs[jid]?.map JobRec.uid = some none ∧
    (queueJob s jid (Except.error e)).1.registry = s.registry := by
  have hq : queueJob s jid (Except.error e)
      = (updJob s jid (fun j0 => { j0 with parentSet := true }),
         some (QueueErr.request e)) := by
    unfold queueJob
    rw [hj]
    simp [hb]
  rw [hq]
  refine ⟨rfl, ?_, ?_, updJob_registry s jid _⟩
  · rw [updJob_getElem_self s jid _ j hj]
    simp [hb]
  · rw [updJob_getElem_self s jid _ j hj]
    simp [hu]

/-- C10 witness: a concrete failing submission request. -/
theorem c10_request_failure_leaves_building_witness :
    (queueJob sysOneJob 0 (Except.error 500)).2 = some (QueueErr.request 500) ∧
    (queueJob sysOneJob 0 (Except.error 500)).1.jobs[0]?.map JobRec.status
      = some Status.building ∧
    (queueJob sysOneJob 0 (Except.error 500)).1.jobs[0]?.map JobRec.uid
      = some none ∧
    (queueJob sysOneJob 0 (Except.error 500)).1.registry = sysOneJob.registry :=
  c10_request_failure_leaves_building sysOneJob 0 (newJobRec 0) (by decide)
    (by decide) (by decide) 500
